import Mathlib

/-!
# Verification of the Youtube_Sync media synchronization server

A shallow embedding of the state-synchronization core of `server.js`
(and its YouTube-only variant): the playback-state record
(`currentMediaState`), the socket event handlers (`identify`, `command`,
`request_sync`), the `updateMediaState` transition function, the uploads
catalog (`uploadedFiles`) with its directory watcher and delete endpoint,
and the YouTube URL id extraction performed by the regex
`(?:youtube\.com\/watch\?v=|youtu\.be\/)([a-zA-Z0-9_-]{11})`.

Connection registries (`clients`, `controllers`) are JavaScript `Map`s
keyed by socket id; only key membership and size are observable in the
modelled paths, so they are embedded as key lists with insert-if-absent
semantics.  JavaScript's loose values (for `data.time`, `data.volume`,
`data.muted`) are embedded as an explicit `JSVal` type with JS
truthiness, so idioms like `data.time || 0` keep their exact semantics.
Socket emissions are collected as an explicit list of `Emit` events
tagged with their audience.
-/

namespace YoutubeSync

/-- A JavaScript value as it can appear in a command payload field.
Strings, numbers (modelled as integers), booleans, `null`, `undefined`
and `NaN` cover every shape the modelled handlers inspect. -/
inductive JSVal where
  | undef
  | null
  | nan
  | num (n : Int)
  | str (s : String)
  | boolean (b : Bool)
deriving DecidableEq

/-- JavaScript truthiness of a `JSVal` (`0`, `NaN`, `""`, `false`,
`null`, `undefined` are falsy; everything else is truthy). -/
def truthy : JSVal → Bool
  | .undef => false
  | .null => false
  | .nan => false
  | .num n => decide (n ≠ 0)
  | .str s => decide (s ≠ "")
  | .boolean b => b

/-- JavaScript `a || b`: the left operand when truthy, otherwise the right. -/
def jsOr (a b : JSVal) : JSVal := if truthy a then a else b

/-- Truthiness of an optional string field (absent or empty is falsy). -/
def strTruthy : Option String → Bool
  | none => false
  | some s => decide (s ≠ "")

/-- JavaScript `s || dflt` for an optional string field. -/
def jsStrOr (o : Option String) (dflt : String) : String :=
  match o with
  | some s => if s = "" then dflt else s
  | none => dflt

/-- The `currentMediaState` record of `server.js`.  `time`, `volume` and
`isMuted` hold raw JavaScript values because `updateMediaState` assigns
payload fields to them without coercion. -/
structure MediaState where
  mediaType : Option String
  videoId : Option String
  fileUrl : Option String
  fileName : Option String
  time : JSVal
  isPlaying : Bool
  volume : JSVal
  isMuted : JSVal
  lastUpdate : Nat
deriving DecidableEq

/-- The initial `currentMediaState` (process start; the startup
timestamp is modelled as 0). -/
def initialMediaState : MediaState :=
  { mediaType := none, videoId := none, fileUrl := none, fileName := none
    time := .num 0, isPlaying := false, volume := .num 100
    isMuted := .boolean false, lastUpdate := 0 }

/-- An inbound `command` payload (the `data` object).  String-or-absent
fields are `Option String`; loosely typed fields are `JSVal`. -/
structure CommandData where
  type : String
  mediaType : Option String
  url : Option String
  videoId : Option String
  fileUrl : Option String
  fileName : Option String
  time : JSVal
  volume : JSVal
  muted : JSVal
deriving DecidableEq

/-- `updateMediaState(data)` from `server.js`: the switch over
`data.type` followed by the unconditional `lastUpdate` stamp.
`seek` assigns `data.time || 0`; `volume` and `mute` assign the raw
payload field. -/
def updateMediaState (data : CommandData) (now : Nat) (s : MediaState) : MediaState :=
  let s' :=
    match data.type with
    | "play" => { s with isPlaying := true }
    | "pause" => { s with isPlaying := false }
    | "seek" => { s with time := jsOr data.time (.num 0) }
    | "restart" => { s with time := .num 0, isPlaying := true }
    | "volume" => { s with volume := data.volume }
    | "mute" => { s with isMuted := data.muted }
    | _ => s
  { s' with lastUpdate := now }

/-- Characters accepted by the regex character class `[a-zA-Z0-9_-]`. -/
def isIdChar (c : Char) : Bool := c.isAlphanum || c == '_' || c == '-'

/-- The characters of the first regex alternative `youtube\.com\/watch\?v=`. -/
def watchMarker : List Char :=
  ['y', 'o', 'u', 't', 'u', 'b', 'e', '.', 'c', 'o', 'm', '/',
   'w', 'a', 't', 'c', 'h', '?', 'v', '=']

/-- The characters of the second regex alternative `youtu\.be\/`. -/
def shortMarker : List Char :=
  ['y', 'o', 'u', 't', 'u', '.', 'b', 'e', '/']

/-- The capture group `([a-zA-Z0-9_-]{11})`: the 11 characters following
a marker, provided all 11 exist and lie in the class. -/
def takeIdAfter (t : List Char) : Option (List Char) :=
  if (t.take 11).length = 11 ∧ (t.take 11).all isIdChar = true then
    some (t.take 11)
  else none

/-- One regex match attempt anchored at the start of `s`: the first
alternative is tried before the second, as in the regex. -/
def matchAt (s : List Char) : Option (List Char) :=
  if watchMarker.isPrefixOf s then takeIdAfter (s.drop watchMarker.length)
  else if shortMarker.isPrefixOf s then takeIdAfter (s.drop shortMarker.length)
  else none

/-- Leftmost regex match: try every start position left to right, as
`String.prototype.match` does for an unanchored regex. -/
def scanYt : List Char → Option (List Char)
  | [] => none
  | c :: rest =>
    match matchAt (c :: rest) with
    | some found => some found
    | none => scanYt rest

/-- `url.match(/(?:youtube\.com\/watch\?v=|youtu\.be\/)([a-zA-Z0-9_-]{11})/)`
followed by taking the capture group, as in the `load` branch. -/
def extractYouTubeId (url : String) : Option String :=
  (scanYt url.toList).map fun l => ⟨l⟩

/-- The property "the URL contains an 11-character id in either accepted
URL shape": some decomposition places one of the two markers immediately
before 11 characters of the id class. -/
def containsYtPattern (url : String) : Prop :=
  ∃ pre mk id post, (mk = watchMarker ∨ mk = shortMarker) ∧
    url.toList = pre ++ (mk ++ (id ++ post)) ∧
    id.length = 11 ∧ id.all isIdChar = true

/-- A value of the `uploadedFiles` map: the `fileInfo` objects built by
the upload endpoint, the startup scan and the directory watcher. -/
structure FileInfo where
  id : String
  originalName : String
  url : String
  kind : String
  size : Nat
  uploadedAt : Nat
deriving DecidableEq

/-- `Map.has(key)` on a registry keyed by socket id. -/
def keyMem (id : String) : List String → Bool
  | [] => false
  | k :: rest => id == k || keyMem id rest

/-- `Map.set(key, v)` restricted to its observable effect on the key
set: a new key is appended, an existing key's entry is replaced in
place (the key set is unchanged). -/
def mapSet (id : String) (m : List String) : List String :=
  if keyMem id m then m else m ++ [id]

/-- `uploadedFiles.has(filename)`. -/
def mapHasKey (filename : String) : List (String × FileInfo) → Bool
  | [] => false
  | (k, _) :: rest => filename == k || mapHasKey filename rest

/-- `uploadedFiles.delete(filename)` (keys are unique, so filtering the
key out is the `Map` deletion). -/
def mapDeleteKey (filename : String) (m : List (String × FileInfo)) :
    List (String × FileInfo) :=
  m.filter fun p => p.1 != filename

/-- `haystack.includes(needle)` on strings: substring search. -/
def hasSubSeq (needle : List Char) : List Char → Bool
  | [] => needle.isEmpty
  | c :: rest => needle.isPrefixOf (c :: rest) || hasSubSeq needle rest

/-- JavaScript `String.prototype.includes`. -/
def strIncludes (hay needle : String) : Bool :=
  hasSubSeq needle.toList hay.toList

/-- The whole mutable server state: the two registries, the uploads
catalog and the playback state. -/
structure ServerState where
  clients : List String
  controllers : List String
  uploadedFiles : List (String × FileInfo)
  media : MediaState
deriving DecidableEq

/-- Server state at process start (empty registries, empty catalog). -/
def initialServerState : ServerState :=
  { clients := [], controllers := [], uploadedFiles := [],
    media := initialMediaState }

/-- The audience of one socket emission. -/
inductive Audience where
  | toSender
  | toAllExceptSender
  | toAll
  | toControllers
deriving DecidableEq

/-- One socket emission: event name and payload, tagged with its audience. -/
inductive Emit where
  | currentState (aud : Audience) (s : MediaState)
  | commandMsg (aud : Audience) (d : CommandData)
  | errorMsg (aud : Audience) (msg : String)
  | clientsCount (aud : Audience) (clientCount controllerCount : Nat)
  | fileAdded (aud : Audience) (info : FileInfo)
  | fileRemoved (aud : Audience) (filename : String)
deriving DecidableEq

/-- `data?.role === "controller" ? "controller" : "client"`. -/
def normRole (roleField : Option String) : String :=
  if roleField = some "controller" then "controller" else "client"

/-- The `identify` handler: register under the resolved role, send the
requester the current state, broadcast the updated per-role counts. -/
def handleIdentify (st : ServerState) (socketId : String)
    (roleField : Option String) : ServerState × List Emit :=
  let st' :=
    if normRole roleField = "controller" then
      { st with controllers := mapSet socketId st.controllers }
    else
      { st with clients := mapSet socketId st.clients }
  (st', [.currentState .toSender st'.media,
         .clientsCount .toAll st'.clients.length st'.controllers.length])

/-- Run a sequence of `identify` events (socket id, `data.role` field). -/
def runIdentify (st : ServerState) : List (String × Option String) → ServerState
  | [] => st
  | (id, rf) :: rest => runIdentify (handleIdentify st id rf).1 rest

/-- The state built by a successful YouTube `load`. -/
def youtubeLoadState (s : MediaState) (videoId : String) (now : Nat) : MediaState :=
  { mediaType := some "youtube", videoId := some videoId, fileUrl := none
    fileName := none, time := .num 0, isPlaying := true
    volume := s.volume, isMuted := s.isMuted, lastUpdate := now }

/-- The `broadcastData` echoed by a successful YouTube `load`. -/
def youtubeLoadEcho (videoId : String) : CommandData :=
  { type := "load", mediaType := some "youtube", url := none
    videoId := some videoId, fileUrl := none, fileName := none
    time := .num 0, volume := .undef, muted := .undef }

/-- The state built by a successful local-file `load`
(`fileName: data.fileName || "Unknown"`). -/
def localLoadState (s : MediaState) (mediaType fileUrl : String)
    (fileName : Option String) (now : Nat) : MediaState :=
  { mediaType := some mediaType, videoId := none, fileUrl := some fileUrl
    fileName := some (jsStrOr fileName "Unknown"), time := .num 0
    isPlaying := true, volume := s.volume, isMuted := s.isMuted
    lastUpdate := now }

/-- The `broadcastData` echoed by a successful local-file `load`
(carries the raw `data.fileName`). -/
def localLoadEcho (mediaType fileUrl : String) (fileName : Option String) :
    CommandData :=
  { type := "load", mediaType := some mediaType, url := none
    videoId := none, fileUrl := some fileUrl, fileName := fileName
    time := .num 0, volume := .undef, muted := .undef }

/-- The YouTube branch of the `load` command handler. -/
def handleYoutubeLoad (st : ServerState) (data : CommandData) (now : Nat) :
    ServerState × List Emit :=
  if strTruthy data.url then
    match extractYouTubeId (data.url.getD "") with
    | some id =>
      let m := youtubeLoadState st.media id now
      ({ st with media := m },
       [.commandMsg .toAllExceptSender (youtubeLoadEcho id),
        .currentState .toAll m])
    | none => (st, [.errorMsg .toSender "Invalid YouTube URL"])
  else if strTruthy data.videoId then
    let id := data.videoId.getD ""
    let m := youtubeLoadState st.media id now
    ({ st with media := m },
     [.commandMsg .toAllExceptSender (youtubeLoadEcho id),
      .currentState .toAll m])
  else (st, [.errorMsg .toSender "Invalid YouTube URL or ID"])

/-- The local-file branch of the `load` command handler: the only check
performed is that `data.fileUrl` is truthy. -/
def handleLocalLoad (st : ServerState) (data : CommandData) (now : Nat) :
    ServerState × List Emit :=
  if strTruthy data.fileUrl then
    let mt := data.mediaType.getD ""
    let u := data.fileUrl.getD ""
    let m := localLoadState st.media mt u data.fileName now
    ({ st with media := m },
     [.commandMsg .toAllExceptSender (localLoadEcho mt u data.fileName),
      .currentState .toAll m])
  else (st, [.errorMsg .toSender "File URL is required"])

/-- The `command` handler of `server.js`: non-controllers are rejected
before anything else happens; `load` dispatches on `mediaType`; every
other type goes through `updateMediaState` and is echoed verbatim to all
sessions except the sender. -/
def handleCommand (st : ServerState) (senderId : String) (data : CommandData)
    (now : Nat) : ServerState × List Emit :=
  if keyMem senderId st.controllers then
    if data.type = "load" ∧ data.mediaType = some "youtube" then
      handleYoutubeLoad st data now
    else if data.type = "load" ∧
        (data.mediaType = some "local_video" ∨ data.mediaType = some "local_audio") then
      handleLocalLoad st data now
    else
      ({ st with media := updateMediaState data now st.media },
       [.commandMsg .toAllExceptSender data])
  else (st, [])

/-- The `request_sync` handler: only sessions present in the `clients`
registry receive the snapshot. -/
def handleRequestSync (st : ServerState) (socketId : String) : List Emit :=
  if keyMem socketId st.clients then [.currentState .toSender st.media]
  else []

/-- `path.extname(filename)`: the substring from the last dot, unless
the dot is the leading character or absent. -/
def lastDotIndexAux : List Char → Nat → Option Nat → Option Nat
  | [], _, acc => acc
  | c :: rest, i, acc =>
    lastDotIndexAux rest (i + 1) (if c = '.' then some i else acc)

/-- `path.extname` on a bare filename. -/
def extname (filename : String) : String :=
  match lastDotIndexAux filename.toList 0 none with
  | none => ""
  | some 0 => ""
  | some i => ⟨filename.toList.drop i⟩

/-- The watcher's recognized video extensions. -/
def videoExts : List String :=
  [".mp4", ".webm", ".mkv", ".avi", ".mov", ".flv", ".wmv", ".m4v", ".3gp"]

/-- The watcher's recognized audio extensions. -/
def audioExts : List String :=
  [".mp3", ".wav", ".ogg", ".m4a", ".aac", ".flac"]

/-- The watcher's extension classification: `local_video`,
`local_audio`, or none (file ignored). -/
def classifyFileType (filename : String) : Option String :=
  let ext := (extname filename).toLower
  if videoExts.contains ext then some "local_video"
  else if audioExts.contains ext then some "local_audio"
  else none

/-- `{ type: "stop" }`, as broadcast on forced stop. -/
def stopCommandData : CommandData :=
  { type := "stop", mediaType := none, url := none, videoId := none
    fileUrl := none, fileName := none, time := .undef, volume := .undef
    muted := .undef }

/-- The reset written by both forced-stop paths: everything cleared
except `volume` and `isMuted`. -/
def forcedStopState (s : MediaState) (now : Nat) : MediaState :=
  { mediaType := none, videoId := none, fileUrl := none, fileName := none
    time := .num 0, isPlaying := false, volume := s.volume
    isMuted := s.isMuted, lastUpdate := now }

/-- `currentMediaState.fileUrl && currentMediaState.fileUrl.includes(filename)`. -/
def playingFileMatches (s : MediaState) (filename : String) : Bool :=
  strTruthy s.fileUrl && strIncludes (s.fileUrl.getD "") filename

/-- The watcher's reaction to a file appearing (post-debounce, the path
re-stats as an existing regular file): catalog it if new and
extension-qualified, and notify controllers. -/
def watcherFileAdded (st : ServerState) (filename : String) (size birthtime : Nat) :
    ServerState × List Emit :=
  if mapHasKey filename st.uploadedFiles then (st, [])
  else
    match classifyFileType filename with
    | some ftype =>
      let info : FileInfo :=
        { id := filename, originalName := filename
          url := "/uploads/" ++ filename, kind := ftype, size := size
          uploadedAt := birthtime }
      ({ st with uploadedFiles := st.uploadedFiles ++ [(filename, info)] },
       [.fileAdded .toControllers info])
    | none => (st, [])

/-- The watcher's reaction to a file disappearing (post-debounce, the
path no longer exists): drop the catalog entry and, if that file is the
one currently playing, force-stop and broadcast. -/
def watcherFileGone (st : ServerState) (filename : String) (now : Nat) :
    ServerState × List Emit :=
  if mapHasKey filename st.uploadedFiles then
    let files := mapDeleteKey filename st.uploadedFiles
    if playingFileMatches st.media filename then
      let m := forcedStopState st.media now
      ({ st with uploadedFiles := files, media := m },
       [.commandMsg .toAll stopCommandData, .currentState .toAll m,
        .fileRemoved .toControllers filename])
    else
      ({ st with uploadedFiles := files },
       [.fileRemoved .toControllers filename])
  else (st, [])

/-- The `DELETE /api/files/:filename` endpoint: if the file exists on
disk it is unlinked and dropped from the catalog, and if it was the one
playing, the same forced-stop broadcast is performed (no controller
notification on this path); otherwise a 404 is returned and nothing
changes. -/
def deleteFileRequest (st : ServerState) (filename : String)
    (existsOnDisk : Bool) (now : Nat) : ServerState × List Emit :=
  if existsOnDisk then
    let files := mapDeleteKey filename st.uploadedFiles
    if playingFileMatches st.media filename then
      let m := forcedStopState st.media now
      ({ st with uploadedFiles := files, media := m },
       [.commandMsg .toAll stopCommandData, .currentState .toAll m])
    else ({ st with uploadedFiles := files }, [])
  else (st, [])

/-- One catalog add/remove event: a watcher-observed appearance, a
watcher-observed disappearance, or an explicit delete request. -/
inductive CatalogEvent where
  | fileAppeared (filename : String) (size birthtime : Nat)
  | fileGone (filename : String) (now : Nat)
  | deleteRequested (filename : String) (existsOnDisk : Bool) (now : Nat)
deriving DecidableEq

/-- Apply one catalog event. -/
def catalogStep (st : ServerState) : CatalogEvent → ServerState × List Emit
  | .fileAppeared f size birth => watcherFileAdded st f size birth
  | .fileGone f now => watcherFileGone st f now
  | .deleteRequested f ex now => deleteFileRequest st f ex now

/-- Run a sequence of catalog events. -/
def runCatalog (st : ServerState) : List CatalogEvent → ServerState
  | [] => st
  | e :: es => runCatalog (catalogStep st e).1 es

/-- A `seek` command carrying the given `time` payload. -/
def seekCommand (t : JSVal) : CommandData :=
  { type := "seek", mediaType := none, url := none, videoId := none
    fileUrl := none, fileName := none, time := t, volume := .undef
    muted := .undef }

/-- A `volume` command carrying the given `volume` payload. -/
def volumeCommand (v : JSVal) : CommandData :=
  { type := "volume", mediaType := none, url := none, videoId := none
    fileUrl := none, fileName := none, time := .undef, volume := v
    muted := .undef }

/-- A YouTube `load` command carrying the given URL. -/
def ytLoadCommand (u : String) : CommandData :=
  { type := "load", mediaType := some "youtube", url := some u
    videoId := none, fileUrl := none, fileName := none, time := .undef
    volume := .undef, muted := .undef }

/-- A local-video `load` command naming a file absent from the catalog. -/
def ghostLoadCommand : CommandData :=
  { type := "load", mediaType := some "local_video", url := none
    videoId := none, fileUrl := some "/uploads/ghost.mp4"
    fileName := some "ghost.mp4", time := .undef, volume := .undef
    muted := .undef }

/-- A server state with one registered controller and nothing else. -/
def soloControllerState : ServerState :=
  { clients := [], controllers := ["c1"], uploadedFiles := [],
    media := initialMediaState }

/-- A server state playing the cataloged local file `a.mp4`. -/
def playingLocalState : ServerState :=
  { clients := ["v1"], controllers := ["c1"]
    uploadedFiles := [("a.mp4",
      { id := "a.mp4", originalName := "a.mp4", url := "/uploads/a.mp4"
        kind := "local_video", size := 10, uploadedAt := 1 })]
    media := localLoadState initialMediaState "local_video" "/uploads/a.mp4"
      (some "a.mp4") 2 }

/-- The registries after socket `s1` identifies first with no role (hence
as client) and then as controller. -/
def reidentifiedState : ServerState :=
  (handleIdentify (handleIdentify initialServerState "s1" none).1 "s1"
    (some "controller")).1

end YoutubeSync

namespace YoutubeSync

lemma keyMem_append_single (id i : String) (m : List String)
    (h : (id == i) = false) : keyMem id (m ++ [i]) = keyMem id m := by
  induction m with
  | nil => simp [keyMem, h]
  | cons a as ih => simp [keyMem, ih]

lemma keyMem_mapSet_other (i id : String) (m : List String)
    (h : (id == i) = false) : keyMem id (mapSet i m) = keyMem id m := by
  unfold mapSet
  by_cases hm : keyMem i m
  · simp [hm]
  · simp only [hm, Bool.false_eq_true, if_neg, ite_false]
    exact keyMem_append_single id i m h

/-- C1: a command from a session absent from the controllers registry
leaves the whole server state (including every `PlaybackState` field)
unchanged and emits nothing at all. -/
theorem C1_role_gating (st : ServerState) (sender : String)
    (data : CommandData) (now : Nat)
    (h : keyMem sender st.controllers = false) :
    handleCommand st sender data now = (st, []) := by
  simp [handleCommand, h]

theorem C1_role_gating_witness :
    keyMem "v1" initialServerState.controllers = false ∧
    handleCommand initialServerState "v1" (seekCommand (.num 3)) 5 =
      (initialServerState, []) :=
  ⟨by decide,
   C1_role_gating initialServerState "v1" (seekCommand (.num 3)) 5 (by decide)⟩

/-- C3 counterexample: a controller seek to −5 stores −5 in `time`
(`data.time || 0` keeps truthy negatives), whereas the claim demands the
clamped value 0. -/
theorem C3_seek_negative_counterexample :
    (updateMediaState (seekCommand (.num (-5))) 7 initialMediaState).time =
      JSVal.num (-5) ∧ JSVal.num (-5) ≠ JSVal.num 0 := by
  decide

/-- C3 amended: after a `seek`, `position` equals the given value
whenever that value is truthy (any nonzero number, negatives included,
without clamping) and equals 0 when the value is absent, zero, `NaN` or
otherwise falsy. -/
theorem C3_seek_amended (s : MediaState) (data : CommandData) (now : Nat)
    (h : data.type = "seek") :
    (updateMediaState data now s).time =
      (if truthy data.time then data.time else JSVal.num 0) := by
  simp [updateMediaState, h, jsOr]

theorem C3_seek_amended_witness :
    (updateMediaState (seekCommand (.num (-5))) 7 initialMediaState).time =
      (if truthy (JSVal.num (-5)) then JSVal.num (-5) else JSVal.num 0) :=
  C3_seek_amended initialMediaState (seekCommand (.num (-5))) 7 rfl

/-- C4 counterexample: a controller `volume` command with value 150
stores 150 verbatim, whereas the claim demands the clamped value 100. -/
theorem C4_volume_unclamped_counterexample :
    (updateMediaState (volumeCommand (.num 150)) 7 initialMediaState).volume =
      JSVal.num 150 ∧ JSVal.num 150 ≠ JSVal.num 100 := by
  decide

/-- C4 amended: after a `volume` transition the stored volume is the
raw payload value, with no clamping or integrality guarantee of any
kind. -/
theorem C4_volume_amended (s : MediaState) (data : CommandData) (now : Nat)
    (h : data.type = "volume") :
    (updateMediaState data now s).volume = data.volume := by
  simp [updateMediaState, h]

theorem C4_volume_amended_witness :
    (updateMediaState (volumeCommand (.num 150)) 7 initialMediaState).volume =
      (volumeCommand (.num 150)).volume :=
  C4_volume_amended initialMediaState (volumeCommand (.num 150)) 7 rfl

/-- C6: applying the same `seek` or `volume` command twice yields the
once-applied state with only `lastUpdate` restamped. -/
theorem C6_seek_volume_idempotent (s : MediaState) (data : CommandData)
    (t1 t2 : Nat) (h : data.type = "seek" ∨ data.type = "volume") :
    updateMediaState data t2 (updateMediaState data t1 s) =
      { updateMediaState data t1 s with lastUpdate := t2 } := by
  rcases h with h | h <;> simp [updateMediaState, h]

theorem C6_seek_volume_idempotent_witness :
    updateMediaState (seekCommand (.num 42)) 9
        (updateMediaState (seekCommand (.num 42)) 8 initialMediaState) =
      { updateMediaState (seekCommand (.num 42)) 8 initialMediaState with
          lastUpdate := 9 } :=
  C6_seek_volume_idempotent initialMediaState (seekCommand (.num 42)) 8 9
    (Or.inl rfl)

/-- C7 counterexample: with an empty catalog, a controller `load` of
`local_video` with `fileUrl = "/uploads/ghost.mp4"` succeeds — the state
is mutated to playing and the load is broadcast — although the reference
resolves to no catalog entry; the claim demands a sender-only error and
an unchanged state. -/
theorem C7_ghost_load_counterexample :
    soloControllerState.uploadedFiles = [] ∧
    (handleCommand soloControllerState "c1" ghostLoadCommand 3).1.media.isPlaying
      = true ∧
    (handleCommand soloControllerState "c1" ghostLoadCommand 3).1.media.fileUrl
      = some "/uploads/ghost.mp4" ∧
    (handleCommand soloControllerState "c1" ghostLoadCommand 3).2 =
      [Emit.commandMsg .toAllExceptSender
         (localLoadEcho "local_video" "/uploads/ghost.mp4" (some "ghost.mp4")),
       Emit.currentState .toAll
         (localLoadState initialMediaState "local_video" "/uploads/ghost.mp4"
            (some "ghost.mp4") 3)] := by
  refine ⟨rfl, ?_, ?_, ?_⟩ <;> rfl

/-- C7 amended: a controller local load errors (to the sender only, with
the state unchanged) exactly when `fileUrl` is absent or empty; whenever
a nonempty `fileUrl` is supplied the load succeeds and broadcasts,
without consulting the catalog at all. -/
theorem C7_local_load_amended (st : ServerState) (sender : String)
    (data : CommandData) (now : Nat)
    (hc : keyMem sender st.controllers = true) (hl : data.type = "load")
    (hm : data.mediaType = some "local_video" ∨
          data.mediaType = some "local_audio") :
    (strTruthy data.fileUrl = false →
      handleCommand st sender data now =
        (st, [Emit.errorMsg .toSender "File URL is required"])) ∧
    (∀ u, data.fileUrl = some u → u ≠ "" →
      handleCommand st sender data now =
        ({ st with media := (localLoadState st.media (data.mediaType.getD "") u
             data.fileName now) },
         [Emit.commandMsg .toAllExceptSender
            (localLoadEcho (data.mediaType.getD "") u data.fileName),
          Emit.currentState .toAll
            (localLoadState st.media (data.mediaType.getD "") u
              data.fileName now)])) := by
  have hym : data.mediaType ≠ some "youtube" := by
    rcases hm with hm | hm <;> simp [hm]
  constructor
  · intro hf
    simp [handleCommand, hc, hym, hl, hm, handleLocalLoad, hf]
  · intro u hu hne
    simp [handleCommand, hc, hym, hl, hm, handleLocalLoad, strTruthy, hu, hne]

theorem C7_local_load_amended_witness :
    handleCommand soloControllerState "c1" ghostLoadCommand 3 =
      ({ soloControllerState with
           media := (localLoadState soloControllerState.media
             (ghostLoadCommand.mediaType.getD "") "/uploads/ghost.mp4"
             ghostLoadCommand.fileName 3) },
       [Emit.commandMsg .toAllExceptSender
          (localLoadEcho (ghostLoadCommand.mediaType.getD "")
            "/uploads/ghost.mp4" ghostLoadCommand.fileName),
        Emit.currentState .toAll
          (localLoadState soloControllerState.media
            (ghostLoadCommand.mediaType.getD "") "/uploads/ghost.mp4"
            ghostLoadCommand.fileName 3)]) :=
  (C7_local_load_amended soloControllerState "c1" ghostLoadCommand 3
      (by decide) rfl (Or.inl rfl)).2 "/uploads/ghost.mp4" rfl (by decide)

/-- C9 counterexample: a session registered as controller that sends
`request_sync` receives nothing — the handler answers only sessions in
the `clients` registry — whereas the claim promises every session a
`current_state` reply. -/
theorem C9_controller_sync_counterexample :
    keyMem "c1" soloControllerState.controllers = true ∧
    handleRequestSync soloControllerState "c1" = [] := by
  decide

/-- C9 amended: exactly the sessions present in the viewer (`clients`)
registry receive, on `request_sync`, a `current_state` message equal to
the authoritative snapshot at the time of the request; controller-only
or unregistered sessions receive nothing. -/
theorem C9_request_sync_amended (st : ServerState) (id : String) :
    handleRequestSync st id =
      (if keyMem id st.clients then [Emit.currentState .toSender st.media]
       else []) := rfl

/-- C10: every `identify`, whatever role it resolves to, leaves the
playback state untouched, sends the identifying session a
`current_state` message carrying that state, and broadcasts to all
sessions a `clients_count` message with the post-registration per-role
counts. -/
theorem C10_identify_emits (st : ServerState) (id : String)
    (roleField : Option String) :
    (handleIdentify st id roleField).1.media = st.media ∧
    (handleIdentify st id roleField).2 =
      [Emit.currentState .toSender st.media,
       Emit.clientsCount .toAll
         (handleIdentify st id roleField).1.clients.length
         (handleIdentify st id roleField).1.controllers.length] := by
  unfold handleIdentify
  by_cases h : normRole roleField = "controller" <;> simp [h]

lemma handleIdentify_fst (st : ServerState) (id : String)
    (rf : Option String) :
    (handleIdentify st id rf).1 =
      if normRole rf = "controller" then
        { st with controllers := mapSet id st.controllers }
      else { st with clients := mapSet id st.clients } := rfl

lemma clients_skip_of_controller_only (evs : List (String × Option String))
    (id : String) (st₀ : ServerState)
    (hr : ∀ e ∈ evs, e.1 = id → normRole e.2 = "controller")
    (h0 : keyMem id st₀.clients = false) :
    keyMem id (runIdentify st₀ evs).clients = false := by
  induction evs generalizing st₀ with
  | nil => exact h0
  | cons e rest ih =>
    obtain ⟨i, rf⟩ := e
    rw [runIdentify]
    apply ih
    · intro e he hi
      exact hr e (List.mem_cons_of_mem _ he) hi
    · rw [handleIdentify_fst]
      by_cases hc : normRole rf = "controller"
      · rw [if_pos hc]
        exact h0
      · rw [if_neg hc]
        by_cases hii : i = id
        · exact absurd (hr (i, rf) (List.mem_cons_self _ _) hii) hc
        · rw [keyMem_mapSet_other i id st₀.clients
            (beq_eq_false_iff_ne.mpr fun h => hii h.symm)]
          exact h0

lemma controllers_skip_of_client_only (evs : List (String × Option String))
    (id : String) (st₀ : ServerState)
    (hr : ∀ e ∈ evs, e.1 = id → normRole e.2 = "client")
    (h0 : keyMem id st₀.controllers = false) :
    keyMem id (runIdentify st₀ evs).controllers = false := by
  induction evs generalizing st₀ with
  | nil => exact h0
  | cons e rest ih =>
    obtain ⟨i, rf⟩ := e
    rw [runIdentify]
    apply ih
    · intro e he hi
      exact hr e (List.mem_cons_of_mem _ he) hi
    · rw [handleIdentify_fst]
      by_cases hc : normRole rf = "controller"
      · by_cases hii : i = id
        · have := hr (i, rf) (List.mem_cons_self _ _) hii
          rw [hc] at this
          exact absurd this (by decide)
        · rw [if_pos hc]
          rw [keyMem_mapSet_other i id st₀.controllers
            (beq_eq_false_iff_ne.mpr fun h => hii h.symm)]
          exact h0
      · rw [if_neg hc]
        exact h0

/-- C8 counterexample: socket `s1` identifies with no role (registered
as client) and then re-identifies as controller; afterwards its id is
present in both registries simultaneously, and commands from it are now
accepted — its effective role changed, refuting both the at-most-one-role
invariant and role immutability. -/
theorem C8_dual_registration_counterexample :
    reidentifiedState.clients = ["s1"] ∧
    reidentifiedState.controllers = ["s1"] := by
  decide

/-- C8 amended: an id starting outside both registries is registered
under at most one role after any sequence of identify messages in which
that id always resolves to the same role; re-identifying with a
different role, however, adds the id to the second registry without
removing it from the first (see the counterexample). -/
theorem C8_single_role_amended (evs : List (String × Option String))
    (id : String) (st₀ : ServerState)
    (h0c : keyMem id st₀.clients = false)
    (h0k : keyMem id st₀.controllers = false)
    (hr : (∀ e ∈ evs, e.1 = id → normRole e.2 = "controller") ∨
          (∀ e ∈ evs, e.1 = id → normRole e.2 = "client")) :
    keyMem id (runIdentify st₀ evs).clients = false ∨
    keyMem id (runIdentify st₀ evs).controllers = false := by
  rcases hr with hr | hr
  · exact Or.inl (clients_skip_of_controller_only evs id st₀ hr h0c)
  · exact Or.inr (controllers_skip_of_client_only evs id st₀ hr h0k)

theorem C8_single_role_amended_witness :
    keyMem "s1" (runIdentify initialServerState
      [("s1", some "controller"), ("s1", some "controller")]).clients = false ∨
    keyMem "s1" (runIdentify initialServerState
      [("s1", some "controller"), ("s1", some "controller")]).controllers
      = false :=
  C8_single_role_amended
    [("s1", some "controller"), ("s1", some "controller")] "s1"
    initialServerState (by decide) (by decide) (Or.inl (by decide))

lemma uploads_url_ne_empty (filename : String) :
    ("/uploads/" ++ filename) ≠ "" := by
  intro h
  have hl := congrArg String.length h
  rw [String.length_append] at hl
  have h9 : "/uploads/".length = 9 := rfl
  have h0 : ("" : String).length = 0 := rfl
  rw [h9, h0] at hl
  omega

lemma isPrefixOf_refl_list (l : List Char) : l.isPrefixOf l = true :=
  List.isPrefixOf_iff_prefix.mpr ⟨[], List.append_nil l⟩

lemma hasSubSeq_suffix (needle : List Char) :
    ∀ pre, hasSubSeq needle (pre ++ needle) = true := by
  intro pre
  induction pre with
  | nil =>
    cases needle with
    | nil => rfl
    | cons c r => simp [hasSubSeq, isPrefixOf_refl_list]
  | cons p ps ih => simp [hasSubSeq, ih]

lemma playingFileMatches_of_ref (s : MediaState) (filename : String)
    (h : s.fileUrl = some ("/uploads/" ++ filename)) :
    playingFileMatches s filename = true := by
  unfold playingFileMatches strIncludes
  rw [h]
  have h1 : strTruthy (some ("/uploads/" ++ filename)) = true := by
    unfold strTruthy
    simp [uploads_url_ne_empty filename]
  rw [h1]
  simp only [Option.getD_some, Bool.true_and]
  have h2 : ("/uploads/" ++ filename).toList =
      "/uploads/".toList ++ filename.toList := by
    simp [String.toList, String.data_append]
  rw [h2]
  exact hasSubSeq_suffix filename.toList "/uploads/".toList

/-- C5: after any sequence of catalog add/remove events, if the file
currently referenced by the playback state is removed — whether by the
directory watcher observing its disappearance or by an explicit delete
request — the playback state is reset (`mediaType` none, not playing),
and a `stop` command followed by the resulting snapshot is broadcast to
all sessions. -/
theorem C5_referenced_removal_forces_stop (st₀ : ServerState)
    (evs : List CatalogEvent) (st : ServerState)
    (_hst : st = runCatalog st₀ evs) (filename : String) (now : Nat)
    (href : st.media.fileUrl = some ("/uploads/" ++ filename))
    (hcat : mapHasKey filename st.uploadedFiles = true) :
    watcherFileGone st filename now =
      ({ st with uploadedFiles := mapDeleteKey filename st.uploadedFiles,
                 media := forcedStopState st.media now },
       [Emit.commandMsg .toAll stopCommandData,
        Emit.currentState .toAll (forcedStopState st.media now),
        Emit.fileRemoved .toControllers filename]) ∧
    deleteFileRequest st filename true now =
      ({ st with uploadedFiles := mapDeleteKey filename st.uploadedFiles,
                 media := forcedStopState st.media now },
       [Emit.commandMsg .toAll stopCommandData,
        Emit.currentState .toAll (forcedStopState st.media now)]) ∧
    (forcedStopState st.media now).mediaType = none ∧
    (forcedStopState st.media now).isPlaying = false := by
  have hp := playingFileMatches_of_ref st.media filename href
  refine ⟨?_, ?_, rfl, rfl⟩
  · simp [watcherFileGone, hcat, hp]
  · simp [deleteFileRequest, hp]

theorem C5_referenced_removal_witness :
    (watcherFileGone playingLocalState "a.mp4" 9).1.media.mediaType = none ∧
    (watcherFileGone playingLocalState "a.mp4" 9).1.media.isPlaying = false ∧
    (watcherFileGone playingLocalState "a.mp4" 9).2 =
      [Emit.commandMsg .toAll stopCommandData,
       Emit.currentState .toAll (forcedStopState playingLocalState.media 9),
       Emit.fileRemoved .toControllers "a.mp4"] := by
  have h := C5_referenced_removal_forces_stop playingLocalState []
    playingLocalState rfl "a.mp4" 9 (by decide) (by decide)
  rw [h.1]
  exact ⟨rfl, rfl, rfl⟩

lemma watch_not_prefixOf_short (rest : List Char) :
    watchMarker.isPrefixOf (shortMarker ++ rest) = false := by
  by_contra hc
  rw [Bool.not_eq_false] at hc
  obtain ⟨t, ht⟩ := List.isPrefixOf_iff_prefix.mp hc
  have h5 : (watchMarker ++ t)[5]? = (shortMarker ++ rest)[5]? := by rw [ht]
  rw [List.getElem?_append_left (by decide),
      List.getElem?_append_left (by decide)] at h5
  exact absurd h5 (by decide)

lemma matchAt_watch (id post : List Char) (hlen : id.length = 11)
    (hall : id.all isIdChar = true) :
    matchAt (watchMarker ++ (id ++ post)) = some id := by
  unfold matchAt
  have hpre : watchMarker.isPrefixOf (watchMarker ++ (id ++ post)) = true :=
    List.isPrefixOf_iff_prefix.mpr ⟨id ++ post, rfl⟩
  rw [if_pos hpre, List.drop_left]
  unfold takeIdAfter
  rw [show (id ++ post).take 11 = id from by
    rw [← hlen] ; exact List.take_left id post]
  rw [if_pos ⟨hlen, hall⟩]

lemma matchAt_short (id post : List Char) (hlen : id.length = 11)
    (hall : id.all isIdChar = true) :
    matchAt (shortMarker ++ (id ++ post)) = some id := by
  unfold matchAt
  rw [watch_not_prefixOf_short]
  rw [if_neg (by simp)]
  have hpre : shortMarker.isPrefixOf (shortMarker ++ (id ++ post)) = true :=
    List.isPrefixOf_iff_prefix.mpr ⟨id ++ post, rfl⟩
  rw [if_pos hpre, List.drop_left]
  unfold takeIdAfter
  rw [show (id ++ post).take 11 = id from by
    rw [← hlen] ; exact List.take_left id post]
  rw [if_pos ⟨hlen, hall⟩]

lemma scanYt_isSome_of_matchAt (s r : List Char) (h : matchAt s = some r) :
    (scanYt s).isSome = true := by
  cases s with
  | nil =>
    rw [show matchAt [] = none from by decide] at h
    exact absurd h (by simp)
  | cons c rest =>
    rw [scanYt, h]
    rfl

lemma scanYt_isSome_of_decomp (pre mk id post : List Char)
    (hmk : mk = watchMarker ∨ mk = shortMarker) (hlen : id.length = 11)
    (hall : id.all isIdChar = true) :
    (scanYt (pre ++ (mk ++ (id ++ post)))).isSome = true := by
  induction pre with
  | nil =>
    rw [List.nil_append]
    rcases hmk with h | h <;> subst h
    · exact scanYt_isSome_of_matchAt _ id (matchAt_watch id post hlen hall)
    · exact scanYt_isSome_of_matchAt _ id (matchAt_short id post hlen hall)
  | cons c cs ih =>
    rw [List.cons_append, scanYt]
    cases hm : matchAt (c :: (cs ++ (mk ++ (id ++ post)))) with
    | some found => rfl
    | none => exact ih

lemma takeIdAfter_some_spec (t r : List Char) (h : takeIdAfter t = some r) :
    t = r ++ t.drop 11 ∧ r.length = 11 ∧ r.all isIdChar = true := by
  unfold takeIdAfter at h
  by_cases hcond : (t.take 11).length = 11 ∧ (t.take 11).all isIdChar = true
  · rw [if_pos hcond] at h
    injection h with h'
    subst h'
    exact ⟨(List.take_append_drop 11 t).symm, hcond.1, hcond.2⟩
  · rw [if_neg hcond] at h
    exact absurd h (by simp)

lemma matchAt_some_spec (s r : List Char) (h : matchAt s = some r) :
    ∃ mk post, (mk = watchMarker ∨ mk = shortMarker) ∧
      s = mk ++ (r ++ post) ∧ r.length = 11 ∧ r.all isIdChar = true := by
  unfold matchAt at h
  by_cases h1 : watchMarker.isPrefixOf s = true
  · rw [if_pos h1] at h
    obtain ⟨t, ht⟩ := List.isPrefixOf_iff_prefix.mp h1
    rw [← ht, List.drop_left] at h
    obtain ⟨heq, hlen, hall⟩ := takeIdAfter_some_spec t r h
    refine ⟨watchMarker, t.drop 11, Or.inl rfl, ?_, hlen, hall⟩
    rw [← ht]
    exact congrArg (fun l => watchMarker ++ l) heq
  · rw [if_neg h1] at h
    by_cases h2 : shortMarker.isPrefixOf s = true
    · rw [if_pos h2] at h
      obtain ⟨t, ht⟩ := List.isPrefixOf_iff_prefix.mp h2
      rw [← ht, List.drop_left] at h
      obtain ⟨heq, hlen, hall⟩ := takeIdAfter_some_spec t r h
      refine ⟨shortMarker, t.drop 11, Or.inr rfl, ?_, hlen, hall⟩
      rw [← ht]
      exact congrArg (fun l => shortMarker ++ l) heq
    · rw [if_neg h2] at h
      exact absurd h (by simp)

lemma scanYt_some_spec (s : List Char) : ∀ r, scanYt s = some r →
    ∃ pre mk post, (mk = watchMarker ∨ mk = shortMarker) ∧
      s = pre ++ (mk ++ (r ++ post)) ∧ r.length = 11 ∧
      r.all isIdChar = true := by
  induction s with
  | nil =>
    intro r h
    rw [scanYt] at h
    exact absurd h (by simp)
  | cons c rest ih =>
    intro r h
    rw [scanYt] at h
    cases hm : matchAt (c :: rest) with
    | some found =>
      rw [hm] at h
      have hfr : found = r := by
        have h' : (some found : Option (List Char)) = some r := h
        injection h'
      subst hfr
      obtain ⟨mk, post, hmk, hs, hlen, hall⟩ := matchAt_some_spec _ _ hm
      refine ⟨[], mk, post, hmk, ?_, hlen, hall⟩
      rw [List.nil_append]
      exact hs
    | none =>
      rw [hm] at h
      obtain ⟨pre, mk, post, hmk, hs, hlen, hall⟩ := ih r h
      refine ⟨c :: pre, mk, post, hmk, ?_, hlen, hall⟩
      rw [List.cons_append, ← hs]

lemma isSome_map_mk (o : Option (List Char)) :
    (o.map fun l => (⟨l⟩ : String)).isSome = o.isSome := by
  cases o <;> rfl

lemma extract_isSome_iff (url : String) :
    containsYtPattern url ↔ (extractYouTubeId url).isSome = true := by
  constructor
  · rintro ⟨pre, mk, id, post, hmk, hurl, hlen, hall⟩
    unfold extractYouTubeId
    rw [hurl, isSome_map_mk]
    exact scanYt_isSome_of_decomp pre mk id post hmk hlen hall
  · intro h
    unfold extractYouTubeId at h
    rw [isSome_map_mk] at h
    obtain ⟨l, hl⟩ := Option.isSome_iff_exists.mp h
    obtain ⟨pre, mk, post, hmk, hs, hlen, hall⟩ := scanYt_some_spec _ l hl
    exact ⟨pre, mk, l, post, hmk, hs, hlen, hall⟩

lemma extract_some_spec (url : String) (id : String)
    (h : extractYouTubeId url = some id) :
    ∃ pre mk post, (mk = watchMarker ∨ mk = shortMarker) ∧
      url.toList = pre ++ (mk ++ (id.toList ++ post)) ∧
      id.toList.length = 11 ∧ id.toList.all isIdChar = true := by
  unfold extractYouTubeId at h
  obtain ⟨l, hl, hfl⟩ := Option.map_eq_some'.mp h
  have hid : id.toList = l := by rw [← hfl]; rfl
  rw [hid]
  exact scanYt_some_spec _ l hl

/-- C2: (1) a URL contains an 11-character id after one of the two
accepted markers exactly when extraction succeeds; (2) the extracted id
is an 11-character id-class string occurring right after a marker in the
URL; (3) a controller YouTube `load` whose URL extracts id stores
exactly that id as the state's `videoId` and broadcasts the normalized
echo plus the snapshot; (4) a URL lacking the pattern yields an error to
the sender only and leaves the whole state exactly as it was; (5) absent
URL and id likewise yields a sender-only error and no mutation. -/
theorem C2_youtube_load_validation :
    (∀ url : String,
      containsYtPattern url ↔ (extractYouTubeId url).isSome = true) ∧
    (∀ url id, extractYouTubeId url = some id →
      ∃ pre mk post, (mk = watchMarker ∨ mk = shortMarker) ∧
        url.toList = pre ++ (mk ++ (id.toList ++ post)) ∧
        id.toList.length = 11 ∧ id.toList.all isIdChar = true) ∧
    (∀ st sender data now u id, keyMem sender st.controllers = true →
      data.type = "load" → data.mediaType = some "youtube" →
      data.url = some u → u ≠ "" → extractYouTubeId u = some id →
      handleCommand st sender data now =
        ({ st with media := youtubeLoadState st.media id now },
         [Emit.commandMsg .toAllExceptSender (youtubeLoadEcho id),
          Emit.currentState .toAll (youtubeLoadState st.media id now)])) ∧
    (∀ st sender data now u, keyMem sender st.controllers = true →
      data.type = "load" → data.mediaType = some "youtube" →
      data.url = some u → u ≠ "" → extractYouTubeId u = none →
      handleCommand st sender data now =
        (st, [Emit.errorMsg .toSender "Invalid YouTube URL"])) ∧
    (∀ st sender data now, keyMem sender st.controllers = true →
      data.type = "load" → data.mediaType = some "youtube" →
      strTruthy data.url = false → strTruthy data.videoId = false →
      handleCommand st sender data now =
        (st, [Emit.errorMsg .toSender "Invalid YouTube URL or ID"])) := by
  refine ⟨extract_isSome_iff, extract_some_spec, ?_, ?_, ?_⟩
  · intro st sender data now u id hc htype hmt hurl hne hex
    simp [handleCommand, hc, htype, hmt, handleYoutubeLoad, hurl, strTruthy,
      hne, hex]
  · intro st sender data now u hc htype hmt hurl hne hex
    simp [handleCommand, hc, htype, hmt, handleYoutubeLoad, hurl, strTruthy,
      hne, hex]
  · intro st sender data now hc htype hmt hu hv
    simp [handleCommand, hc, htype, hmt, handleYoutubeLoad, hu, hv]

theorem C2_youtube_load_validation_witness :
    handleCommand soloControllerState "c1"
        (ytLoadCommand "https://www.youtube.com/watch?v=dQw4w9WgXcQ") 4 =
      ({ soloControllerState with
           media := youtubeLoadState soloControllerState.media "dQw4w9WgXcQ" 4 },
       [Emit.commandMsg .toAllExceptSender (youtubeLoadEcho "dQw4w9WgXcQ"),
        Emit.currentState .toAll
          (youtubeLoadState soloControllerState.media "dQw4w9WgXcQ" 4)]) :=
  C2_youtube_load_validation.2.2.1 soloControllerState "c1"
    (ytLoadCommand "https://www.youtube.com/watch?v=dQw4w9WgXcQ") 4
    "https://www.youtube.com/watch?v=dQw4w9WgXcQ" "dQw4w9WgXcQ"
    (by decide) rfl rfl rfl (by decide) (by rfl)

end YoutubeSync
